import Mathlib

/-!
Verification development for the Amana Bookstore Express API (`src/server.js`).

The server is shallowly embedded: the two in-memory collections become a
`ServerState`, each Express route handler becomes a Lean function from state
and request to response and new state, and the ordered route matching of
Express is embedded as a route table in registration order with a
first-match dispatcher.  Nondeterministic inputs of the runtime
(`crypto.randomUUID`, the current date/time) are passed in explicitly as an
`Oracle`.
-/

namespace Amana

/-! ## JavaScript string primitives -/

/-- JavaScript `String.prototype.split(sep)` on a list of characters:
splits at every occurrence of `sep`, keeps empty parts, and never returns
an empty list (`"".split(c)` is `[""]`). -/
def splitOnChar (sep : Char) : List Char → List (List Char)
  | [] => [[]]
  | c :: cs =>
    if c = sep then [] :: splitOnChar sep cs
    else
      match splitOnChar sep cs with
      | [] => [[c]]
      | p :: ps => (c :: p) :: ps

/-- JavaScript `s.split(sep)` at the `String` level. -/
def jsSplit (s : String) (sep : Char) : List String :=
  (splitOnChar sep s.data).map List.asString

/-- The byte values of an ASCII string (used to compare a decoded credential
against the hardcoded literals at the byte level). -/
def asciiBytes (s : String) : List Nat :=
  s.data.map Char.toNat

/-! ## Base64 decoding (Node `Buffer.from(s, 'base64')`)

The Node base64 decoder is forgiving: characters outside the base64 alphabet
(including `=` padding and whitespace) are skipped, and a lone trailing
sextet contributes no byte. -/

/-- The 6-bit value of a base64 alphabet character, `none` for any other
character (Node skips those). -/
def b64val (c : Char) : Option Nat :=
  if 'A' ≤ c ∧ c ≤ 'Z' then some (c.toNat - 65)
  else if 'a' ≤ c ∧ c ≤ 'z' then some (c.toNat - 97 + 26)
  else if '0' ≤ c ∧ c ≤ '9' then some (c.toNat - 48 + 52)
  else if c = '+' then some 62
  else if c = '/' then some 63
  else none

/-- Reassemble a list of 6-bit values into 8-bit bytes, dropping a lone
trailing sextet, as Node does. -/
def sextetsToBytes : List Nat → List Nat
  | a :: b :: c :: d :: rest =>
    (a * 4 + b / 16) :: ((b % 16) * 16 + c / 4) :: ((c % 4) * 64 + d) ::
      sextetsToBytes rest
  | [a, b, c] => [a * 4 + b / 16, (b % 16) * 16 + c / 4]
  | [a, b] => [a * 4 + b / 16]
  | _ => []

/-- `Buffer.from(s, 'base64')` as a list of byte values. -/
def b64decode (s : String) : List Nat :=
  sextetsToBytes (s.data.filterMap b64val)

/-- JavaScript `split(':')` applied to the decoded buffer, modelled at the
byte level: a `:` character of the decoded string corresponds exactly to a
`0x3A` byte, since an ASCII byte is never absorbed by a preceding
(possibly invalid) multi-byte UTF-8 sequence. -/
def splitOnByte (sep : Nat) : List Nat → List (List Nat)
  | [] => [[]]
  | b :: bs =>
    if b = sep then [] :: splitOnByte sep bs
    else
      match splitOnByte sep bs with
      | [] => [[b]]
      | p :: ps => (b :: p) :: ps

/-! ## Data model

Numeric JSON fields are modelled as `Rat` (JavaScript numbers on the values
this API stores: prices, ratings); counters and review ratings that the code
coerces with `parseInt` are `Int`. -/

structure Book where
  id : String
  title : String
  author : String
  description : String
  price : Rat
  isbn : String
  genre : List String
  tags : List String
  datePublished : String
  pages : Rat
  language : String
  publisher : String
  rating : Rat
  reviewCount : Rat
  inStock : Bool
  featured : Bool
  deriving Repr, DecidableEq

structure Review where
  id : String
  bookId : String
  author : String
  rating : Int
  title : String
  comment : String
  timestamp : String
  verified : Bool
  deriving Repr, DecidableEq

/-- The two in-memory collections (`let books = []; let reviews = []`). -/
structure ServerState where
  books : List Book
  reviews : List Review
  deriving Repr, DecidableEq

/-- Runtime-supplied nondeterminism: `crypto.randomUUID()` for each POST
route, `new Date().toISOString()` and its date part. -/
structure Oracle where
  uuid : String
  todayDate : String
  nowIso : String
  deriving Repr, DecidableEq

/-- JSON body of `POST /api/books`; absent fields are `none`. -/
structure BookBody where
  title : Option String
  author : Option String
  description : Option String
  price : Option Rat
  isbn : Option String
  genre : Option (List String)
  tags : Option (List String)
  datePublished : Option String
  pages : Option Rat
  language : Option String
  publisher : Option String
  deriving Repr, DecidableEq

/-- JSON body of `POST /api/reviews`; the `rating` the client sends is
modelled after coercion (`parseInt(rating, 10)`), with JavaScript truthiness
`!rating` holding exactly when it is absent or zero. -/
structure ReviewBody where
  bookId : Option String
  author : Option String
  rating : Option Int
  title : Option String
  comment : Option String
  deriving Repr, DecidableEq

/-- JavaScript truthiness of an optional string (`!s` fails exactly on a
present non-empty string). -/
def truthyS (o : Option String) : Prop :=
  match o with
  | some s => s ≠ ""
  | none => False

instance (o : Option String) : Decidable (truthyS o) := by
  unfold truthyS
  cases o with
  | none => exact inferInstanceAs (Decidable False)
  | some s => exact inferInstanceAs (Decidable (s ≠ ""))

/-- JavaScript truthiness of the coerced rating (`!rating`). -/
def truthyI (o : Option Int) : Prop :=
  match o with
  | some n => n ≠ 0
  | none => False

instance (o : Option Int) : Decidable (truthyI o) := by
  unfold truthyI
  cases o with
  | none => exact inferInstanceAs (Decidable False)
  | some n => exact inferInstanceAs (Decidable (n ≠ 0))

/-- JavaScript `x || d` for an optional string field (an empty string is
falsy, so it also falls back to the default). -/
def jsOrS (o : Option String) (d : String) : String :=
  match o with
  | some s => if s = "" then d else s
  | none => d

/-- JavaScript `x || d` for an optional numeric field with default `0`
(`0 || 0` is `0`, so `getD` is exact). -/
def jsOrN (o : Option Rat) : Rat :=
  o.getD 0

/-- JavaScript `x || []` for an optional array field (arrays are always
truthy). -/
def jsOrA (o : Option (List String)) : List String :=
  o.getD []

/-! ## Date parsing

`new Date(s)` on an ISO `YYYY-MM-DD` string yields a valid date exactly when
the components are in range; the handler only compares the resulting time
values, so a date is modelled by the monotone key `y * 10000 + m * 100 + d`.
Other legacy input formats of the platform parser are outside the contract
(the spec fixes the query format to `YYYY-MM-DD`). -/

/-- Numeric value of a decimal digit character. -/
def digitVal (c : Char) : Option Nat :=
  if '0' ≤ c ∧ c ≤ '9' then some (c.toNat - 48) else none

/-- Whether a year is a leap year (Gregorian rules, as the JS engine uses). -/
def isLeap (y : Nat) : Bool :=
  (y % 4 = 0 ∧ y % 100 ≠ 0) ∨ y % 400 = 0

/-- Days in a month, for ISO component validation. -/
def daysInMonth (y m : Nat) : Nat :=
  if m = 2 then (if isLeap y then 29 else 28)
  else if m = 4 ∨ m = 6 ∨ m = 9 ∨ m = 11 then 30
  else 31

/-- `new Date(s)` for an ISO `YYYY-MM-DD` string: `some` monotone day key
when the date is valid, `none` (an invalid date, `NaN` time value)
otherwise. -/
def jsParseDate (s : String) : Option Nat :=
  match s.data with
  | [y1, y2, y3, y4, h1, m1, m2, h2, d1, d2] =>
    if h1 = '-' ∧ h2 = '-' then
      match digitVal y1, digitVal y2, digitVal y3, digitVal y4,
            digitVal m1, digitVal m2, digitVal d1, digitVal d2 with
      | some a, some b, some c, some d, some e, some f, some g, some h =>
        let y := a * 1000 + b * 100 + c * 10 + d
        let m := e * 10 + f
        let dd := g * 10 + h
        if 1 ≤ m ∧ m ≤ 12 ∧ 1 ≤ dd ∧ dd ≤ daysInMonth y m then
          some (y * 10000 + m * 100 + dd)
        else none
      | _, _, _, _, _, _, _, _ => none
    else none
  | _ => none

/-! ## Requests and responses -/

inductive Method where
  | GET
  | POST
  deriving Repr, DecidableEq

/-- The projection returned by the top-rated route: a spread copy of the
book plus the derived `ratingScore` field. -/
structure ScoredBook where
  book : Book
  ratingScore : Rat
  deriving Repr, DecidableEq

/-- Response bodies the server can produce, by shape. -/
inductive RespBody where
  | text : String → RespBody
  | jsonMsg : String → RespBody
  | jsonBooks : List Book → RespBody
  | jsonBook : Book → RespBody
  | jsonScored : List ScoredBook → RespBody
  | jsonReviews : List Review → RespBody
  | jsonReview : Review → RespBody
  | errorHtml : RespBody
  | defaultNotFound : RespBody
  deriving Repr, DecidableEq

structure Response where
  status : Nat
  wwwAuthenticate : Option String := none
  body : RespBody
  deriving Repr, DecidableEq

/-- An HTTP request: method, path split into segments, query parameters,
the optional `Authorization` header, and the JSON body viewed through the
fields each POST handler destructures. -/
structure Request where
  method : Method
  path : List String
  query : List (String × String) := []
  authorization : Option String := none
  bookBody : BookBody := ⟨none, none, none, none, none, none, none, none, none, none, none⟩
  reviewBody : ReviewBody := ⟨none, none, none, none, none⟩
  deriving Repr, DecidableEq

/-- Query-parameter lookup (`req.query.k`): `none` when absent. -/
def lookupQ (q : List (String × String)) (k : String) : Option String :=
  (q.find? (fun p => p.1 == k)).map (fun p => p.2)

/-! ## Authentication middleware (`basicAuth`) -/

/-- Outcome of the `basicAuth` middleware.  `threw` is the case where
`authHeader.split(' ')[1]` is `undefined` (no space in the header), so
`Buffer.from(undefined, 'base64')` raises a `TypeError`, which Express
catches and turns into a 500 response. -/
inductive AuthResult where
  | challenge
  | threw
  | invalid
  | proceed
  deriving Repr, DecidableEq

/-- The colon-separated byte fields of the decoded credential payload
(`Buffer.from(p, 'base64').toString().split(':')`, at the byte level:
a `:` character of the decoded string corresponds exactly to byte `0x3A`,
and a field decodes to an ASCII literal exactly when its bytes are that
ASCII sequence). -/
def authParts (payload : String) : List (List Nat) :=
  splitOnByte 58 (b64decode payload)

/-- `username === "medhat" && password === "Hero97"` after destructuring
the first two split fields. -/
def credOk (payload : String) : Bool :=
  decide ((authParts payload)[0]? = some (asciiBytes "medhat"))
    && decide ((authParts payload)[1]? = some (asciiBytes "Hero97"))

/-- The `basicAuth` middleware decision on the `Authorization` header.
An absent or empty header is falsy and draws the challenge; otherwise the
second space-separated token is base64-decoded and the two credential
fields are compared against the hardcoded pair.  The scheme token, index 0
of the split, is never inspected. -/
def basicAuth (authHeader : Option String) : AuthResult :=
  match authHeader with
  | none => .challenge
  | some h =>
    if h = "" then .challenge
    else
      match (jsSplit h ' ')[1]? with
      | none => .threw
      | some payload => if credOk payload then .proceed else .invalid

def challengeResp : Response :=
  { status := 401, wwwAuthenticate := some "Basic realm=\"Restricted Area\"",
    body := .text "Authentication required." }

def invalidCredResp : Response :=
  { status := 401, wwwAuthenticate := some "Basic realm=\"Restricted Area\"",
    body := .text "Authentication failed: Invalid credentials." }

/-- The Express default error handler answer for an error thrown inside a
middleware or handler: status 500 with an HTML body. -/
def err500Resp : Response :=
  { status := 500, body := .errorHtml }

/-! ## GET route handlers -/

/-- `GET /api/books`: the whole collection. -/
def getAllBooksH (st : ServerState) : Response :=
  { status := 200, body := .jsonBooks st.books }

/-- `GET /api/books/:id`: `books.find(b => b.id === req.params.id)`. -/
def getBookByIdH (st : ServerState) (id : String) : Response :=
  match st.books.find? (fun b => b.id == id) with
  | some b => { status := 200, body := .jsonBook b }
  | none => { status := 404, body := .text "Book not found" }

/-- Predicate of the date-range filter: the published date of the book
parses and its time value lies between the two bounds (a book whose date
does not parse compares false with `NaN` and is excluded). -/
def inRange (lo hi : Nat) (b : Book) : Bool :=
  match jsParseDate b.datePublished with
  | some d => decide (lo ≤ d) && decide (d ≤ hi)
  | none => false

/-- The handler body of `GET /api/books/published` (registered after the
`:id` route). -/
def publishedH (st : ServerState) (q : List (String × String)) : Response :=
  match lookupQ q "startDate", lookupQ q "endDate" with
  | some s, some e =>
    if s = "" ∨ e = "" then
      { status := 400,
        body := .text "Please provide both startDate and endDate query parameters." }
    else
      match jsParseDate s, jsParseDate e with
      | some lo, some hi =>
        { status := 200, body := .jsonBooks (st.books.filter (inRange lo hi)) }
      | _, _ =>
        { status := 400, body := .text "Invalid date format. Please use YYYY-MM-DD." }
  | _, _ =>
    { status := 400,
      body := .text "Please provide both startDate and endDate query parameters." }

/-- The derived score `book.rating * book.reviewCount`. -/
def scoreOf (b : Book) : Rat :=
  b.rating * b.reviewCount

/-- Stable descending insertion by `ratingScore`: an element is placed
before the first element of strictly smaller or equal-and-later score;
since elements are inserted back to front, equal scores keep their original
relative order, as the stable platform sort does. -/
def insertByScore (x : ScoredBook) : List ScoredBook → List ScoredBook
  | [] => [x]
  | y :: ys =>
    if y.ratingScore ≤ x.ratingScore then x :: y :: ys
    else y :: insertByScore x ys

/-- Stable sort, descending by `ratingScore` (the platform `sort` with
comparator `b.ratingScore - a.ratingScore` is stable). -/
def sortByScoreDesc : List ScoredBook → List ScoredBook
  | [] => []
  | x :: xs => insertByScore x (sortByScoreDesc xs)

/-- The handler body of `GET /api/books/top-rated` (registered after the
`:id` route): map to spread copies carrying `ratingScore`, stable-sort
descending, take 10.  The stored collection is read, never written. -/
def topRatedH (st : ServerState) : Response :=
  { status := 200,
    body := .jsonScored
      ((sortByScoreDesc (st.books.map (fun b => ⟨b, scoreOf b⟩))).take 10) }

/-- `GET /api/featured`. -/
def featuredH (st : ServerState) : Response :=
  { status := 200, body := .jsonBooks (st.books.filter (fun b => b.featured == true)) }

/-- `GET /api/books/:id/reviews`. -/
def reviewsForBookH (st : ServerState) (id : String) : Response :=
  if st.books.any (fun b => b.id == id) then
    { status := 200,
      body := .jsonReviews (st.reviews.filter (fun r => r.bookId == id)) }
  else
    { status := 404, body := .text "Book not found." }

/-! ## POST route handlers -/

/-- The book record `POST /api/books` constructs on the success path, with
the generated id and the default-filled optional fields. -/
def mkNewBook (orc : Oracle) (bb : BookBody) (t a i : String) : Book :=
  { id := orc.uuid
    title := t
    author := a
    description := jsOrS bb.description ""
    price := jsOrN bb.price
    isbn := i
    genre := jsOrA bb.genre
    tags := jsOrA bb.tags
    datePublished := jsOrS bb.datePublished orc.todayDate
    pages := jsOrN bb.pages
    language := jsOrS bb.language "English"
    publisher := jsOrS bb.publisher ""
    rating := 0
    reviewCount := 0
    inStock := true
    featured := false }

/-- The `POST /api/books` handler after authentication: presence check on
`title`, `author`, `isbn` (JavaScript truthiness, so an empty string fails),
then construct, append, save.  The third component records whether
`saveData()` ran. -/
def addBookH (st : ServerState) (orc : Oracle) (bb : BookBody) :
    Response × ServerState × Bool :=
  match bb.title, bb.author, bb.isbn with
  | some t, some a, some i =>
    if t = "" ∨ a = "" ∨ i = "" then
      ({ status := 400,
         body := .jsonMsg "Missing required fields: title, author, and isbn are required." },
       st, false)
    else
      ({ status := 201, body := .jsonBook (mkNewBook orc bb t a i) },
       { st with books := st.books ++ [mkNewBook orc bb t a i] }, true)
  | _, _, _ =>
    ({ status := 400,
       body := .jsonMsg "Missing required fields: title, author, and isbn are required." },
     st, false)

/-- The review record `POST /api/reviews` constructs on the success path. -/
def mkNewReview (orc : Oracle) (rb : ReviewBody) (bid a : String) (r : Int) (c : String) : Review :=
  { id := "review-" ++ orc.uuid
    bookId := bid
    author := a
    rating := r
    title := jsOrS rb.title ""
    comment := c
    timestamp := orc.nowIso
    verified := false }

/-- The `POST /api/reviews` handler after authentication: presence check on
`bookId`, `author`, `rating`, `comment` (the rating is modelled after the
`parseInt` coercion, truthy when nonzero), then existence check of the
referenced book, then construct, append, save. -/
def addReviewH (st : ServerState) (orc : Oracle) (rb : ReviewBody) :
    Response × ServerState × Bool :=
  match rb.bookId, rb.author, rb.rating, rb.comment with
  | some bid, some a, some r, some c =>
    if bid = "" ∨ a = "" ∨ r = 0 ∨ c = "" then
      ({ status := 400,
         body := .jsonMsg "Missing required fields: bookId, author, rating, and comment are required." },
       st, false)
    else if st.books.any (fun b => b.id == bid) then
      ({ status := 201, body := .jsonReview (mkNewReview orc rb bid a r c) },
       { st with reviews := st.reviews ++ [mkNewReview orc rb bid a r c] }, true)
    else
      ({ status := 404,
         body := .jsonMsg "Book not found. Cannot add a review for a non-existent book." },
       st, false)
  | _, _, _, _ =>
    ({ status := 400,
       body := .jsonMsg "Missing required fields: bookId, author, rating, and comment are required." },
     st, false)

/-! ## Routing

Express matches routes in registration order; the table below lists the
registered routes of `server.js` in source order.  Note that the
`GET /api/books/:id` route is registered before `GET /api/books/published`
and `GET /api/books/top-rated`. -/

inductive Seg where
  | lit : String → Seg
  | param : Seg
  deriving Repr, DecidableEq

inductive RouteTag where
  | allBooks
  | bookById
  | published
  | topRated
  | featured
  | reviewsFor
  | postBook
  | postReview
  deriving Repr, DecidableEq

def segMatches (sg : Seg) (s : String) : Bool :=
  match sg with
  | .lit t => t == s
  | .param => true

def patMatches (pat : List Seg) (path : List String) : Bool :=
  pat.length == path.length && (List.zip pat path).all (fun z => segMatches z.1 z.2)

/-- The routes of `server.js`, in registration order. -/
def routeTable : List (Method × List Seg × RouteTag) :=
  [ (.GET, [.lit "api", .lit "books"], .allBooks),
    (.GET, [.lit "api", .lit "books", .param], .bookById),
    (.GET, [.lit "api", .lit "books", .lit "published"], .published),
    (.GET, [.lit "api", .lit "books", .lit "top-rated"], .topRated),
    (.GET, [.lit "api", .lit "featured"], .featured),
    (.GET, [.lit "api", .lit "books", .param, .lit "reviews"], .reviewsFor),
    (.POST, [.lit "api", .lit "books"], .postBook),
    (.POST, [.lit "api", .lit "reviews"], .postReview) ]

/-- First-match dispatch, as Express performs it. -/
def matchRoute (m : Method) (path : List String) : Option RouteTag :=
  (routeTable.find? (fun r => r.1 == m && patMatches r.2.1 path)).map (fun r => r.2.2)

/-- Run the `basicAuth` middleware in front of a protected handler, mapping
each failure to its response; a thrown error is answered by the Express
default error handler with status 500. -/
def withAuth (st : ServerState) (authHeader : Option String)
    (k : Unit → Response × ServerState × Bool) : Response × ServerState × Bool :=
  match basicAuth authHeader with
  | .challenge => (challengeResp, st, false)
  | .threw => (err500Resp, st, false)
  | .invalid => (invalidCredResp, st, false)
  | .proceed => k ()

/-- The whole request cycle: route dispatch, authentication for the POST
routes, then the matched handler.  Returns the response, the state after
the request, and whether `saveData()` was invoked. -/
def handle (st : ServerState) (orc : Oracle) (req : Request) :
    Response × ServerState × Bool :=
  match matchRoute req.method req.path with
  | some .allBooks => (getAllBooksH st, st, false)
  | some .bookById => (getBookByIdH st (req.path.getD 2 ""), st, false)
  | some .published => (publishedH st req.query, st, false)
  | some .topRated => (topRatedH st, st, false)
  | some .featured => (featuredH st, st, false)
  | some .reviewsFor => (reviewsForBookH st (req.path.getD 2 ""), st, false)
  | some .postBook => withAuth st req.authorization (fun _ => addBookH st orc req.bookBody)
  | some .postReview => withAuth st req.authorization (fun _ => addReviewH st orc req.reviewBody)
  | none => ({ status := 404, body := .defaultNotFound }, st, false)

/-- The read accessor behind `GET /api/books/:id`:
`books.find(b => b.id === id)`. -/
def getById (st : ServerState) (id : String) : Option Book :=
  st.books.find? (fun b => b.id == id)

/-! ## Persistence (`saveData` / `loadData`)

`saveData` serializes the collections with `JSON.stringify` under the
`books` / `reviews` envelope keys; `loadData` parses the documents back and
projects those keys.  The platform codec pair `JSON.parse` after
`JSON.stringify` is the identity on the JSON value, so the documents are
modelled at the level of JSON values. -/

inductive Json where
  | str : String → Json
  | num : Rat → Json
  | bool : Bool → Json
  | arr : List Json → Json
  | obj : List (String × Json) → Json
  deriving Repr

/-- Field lookup in a JSON object node. -/
def getField (j : Json) (k : String) : Option Json :=
  match j with
  | .obj fields => (fields.find? (fun p => p.1 == k)).map (fun p => p.2)
  | _ => none

def asStr : Json → Option String
  | .str s => some s
  | _ => none

def asNum : Json → Option Rat
  | .num q => some q
  | _ => none

def asBool : Json → Option Bool
  | .bool b => some b
  | _ => none

def asArr : Json → Option (List Json)
  | .arr l => some l
  | _ => none

/-- Decode an array of JSON strings. -/
def decodeStrList : List Json → Option (List String)
  | [] => some []
  | j :: js => do
    let s ← asStr j
    let ss ← decodeStrList js
    pure (s :: ss)

/-- Decode each element of a JSON array with `f`. -/
def decodeAll (f : Json → Option α) : List Json → Option (List α)
  | [] => some []
  | j :: js => do
    let a ← f j
    let as ← decodeAll f js
    pure (a :: as)

/-- The JSON value a Book serializes to. -/
def encodeBook (b : Book) : Json :=
  .obj [ ("id", .str b.id), ("title", .str b.title), ("author", .str b.author),
         ("description", .str b.description), ("price", .num b.price),
         ("isbn", .str b.isbn), ("genre", .arr (b.genre.map Json.str)),
         ("tags", .arr (b.tags.map Json.str)),
         ("datePublished", .str b.datePublished), ("pages", .num b.pages),
         ("language", .str b.language), ("publisher", .str b.publisher),
         ("rating", .num b.rating), ("reviewCount", .num b.reviewCount),
         ("inStock", .bool b.inStock), ("featured", .bool b.featured) ]

/-- Reading a Book record back from its JSON value. -/
def decodeBook (j : Json) : Option Book := do
  let id ← getField j "id" >>= asStr
  let title ← getField j "title" >>= asStr
  let author ← getField j "author" >>= asStr
  let description ← getField j "description" >>= asStr
  let price ← getField j "price" >>= asNum
  let isbn ← getField j "isbn" >>= asStr
  let genre ← getField j "genre" >>= asArr >>= decodeStrList
  let tags ← getField j "tags" >>= asArr >>= decodeStrList
  let datePublished ← getField j "datePublished" >>= asStr
  let pages ← getField j "pages" >>= asNum
  let language ← getField j "language" >>= asStr
  let publisher ← getField j "publisher" >>= asStr
  let rating ← getField j "rating" >>= asNum
  let reviewCount ← getField j "reviewCount" >>= asNum
  let inStock ← getField j "inStock" >>= asBool
  let featured ← getField j "featured" >>= asBool
  pure ⟨id, title, author, description, price, isbn, genre, tags,
        datePublished, pages, language, publisher, rating, reviewCount,
        inStock, featured⟩

/-- The JSON value a Review serializes to. -/
def encodeReview (r : Review) : Json :=
  .obj [ ("id", .str r.id), ("bookId", .str r.bookId), ("author", .str r.author),
         ("rating", .num (r.rating : Rat)), ("title", .str r.title),
         ("comment", .str r.comment), ("timestamp", .str r.timestamp),
         ("verified", .bool r.verified) ]

/-- Reading a Review record back from its JSON value.  The `rating` is an
integer-valued number; parsing recovers the integer. -/
def decodeReview (j : Json) : Option Review := do
  let id ← getField j "id" >>= asStr
  let bookId ← getField j "bookId" >>= asStr
  let author ← getField j "author" >>= asStr
  let rating ← getField j "rating" >>= asNum
  let title ← getField j "title" >>= asStr
  let comment ← getField j "comment" >>= asStr
  let timestamp ← getField j "timestamp" >>= asStr
  let verified ← getField j "verified" >>= asBool
  if rating.den = 1 then
    pure ⟨id, bookId, author, rating.num, title, comment, timestamp, verified⟩
  else none

/-- `saveData()`: the two documents written to disk, as JSON values
(`JSON.stringify` with the envelope object). -/
def saveData (st : ServerState) : Json × Json :=
  (.obj [("books", .arr (st.books.map encodeBook))],
   .obj [("reviews", .arr (st.reviews.map encodeReview))])

/-- `loadData()`: parse both documents and project `.books` / `.reviews`;
`none` models the fatal start-up failure (`process.exit(1)`). -/
def loadData (docs : Json × Json) : Option ServerState := do
  let bs ← getField docs.1 "books" >>= asArr >>= decodeAll decodeBook
  let rs ← getField docs.2 "reviews" >>= asArr >>= decodeAll decodeReview
  pure ⟨bs, rs⟩

/-! ## Exposed mutation operations, for properties over the process
lifetime -/

/-- An exposed mutation: the two authenticated POST handlers, each with its
runtime oracle.  GET handlers never change the state (visible from `handle`,
which returns `st` unchanged on every GET branch). -/
inductive Op where
  | addBook : Oracle → BookBody → Op
  | addReview : Oracle → ReviewBody → Op
  deriving Repr

/-- The state transition of one exposed mutation. -/
def applyOp (st : ServerState) (op : Op) : ServerState :=
  match op with
  | .addBook orc bb => (addBookH st orc bb).2.1
  | .addReview orc rb => (addReviewH st orc rb).2.1

/-- The state after a sequence of exposed mutations. -/
def applyOps (st : ServerState) (ops : List Op) : ServerState :=
  ops.foldl applyOp st

/-! ## Concrete fixtures used by witnesses and counterexamples -/

def book1 : Book :=
  ⟨"1", "Book One", "Alice", "", 10, "111", [], [], "2020-05-01", 100,
   "English", "", 4, 2, true, false⟩

def book2 : Book :=
  ⟨"2", "Book Two", "Bob", "", 12, "222", [], [], "2020-06-15", 200,
   "English", "", 5, 10, true, true⟩

def st0 : ServerState := ⟨[book1, book2], []⟩

def orc0 : Oracle := ⟨"uuid-1", "2024-01-02", "2024-01-02T03:04:05.000Z"⟩

/-- A well-formed credential header for the hardcoded pair
(base64 of the user-colon-password string). -/
def goodAuth : String := "Basic bWVkaGF0Okhlcm85Nw=="

/-- The date-range request of the spec scenario. -/
def reqPublished : Request :=
  { method := .GET, path := ["api", "books", "published"],
    query := [("startDate", "2020-01-01"), ("endDate", "2020-12-31")] }

def reqTopRated : Request :=
  { method := .GET, path := ["api", "books", "top-rated"] }

/-- The authenticated book-creation request. -/
def postBookReq (hdr : String) (bb : BookBody) : Request :=
  { method := .POST, path := ["api", "books"], authorization := some hdr,
    bookBody := bb }

/-- The authenticated review-creation request. -/
def postReviewReq (hdr : String) (rb : ReviewBody) : Request :=
  { method := .POST, path := ["api", "reviews"], authorization := some hdr,
    reviewBody := rb }

/-- Body of the spec scenario: title, author and isbn only. -/
def bbTAI : BookBody :=
  ⟨some "T", some "A", none, none, some "123", none, none, none, none, none, none⟩

/-! ## Frame lemmas about the two mutation handlers -/

theorem addReviewH_books_eq (st : ServerState) (orc : Oracle) (rb : ReviewBody) :
    (addReviewH st orc rb).2.1.books = st.books := by
  unfold addReviewH
  rcases rb with ⟨bid, a, r, t, c⟩
  rcases bid with _ | bid <;> rcases a with _ | a <;> rcases r with _ | r <;>
    rcases c with _ | c <;> simp <;> split_ifs <;> rfl

theorem addReviewH_reviews_extends (st : ServerState) (orc : Oracle) (rb : ReviewBody) :
    (addReviewH st orc rb).2.1.reviews.take st.reviews.length = st.reviews := by
  unfold addReviewH
  rcases rb with ⟨bid, a, r, t, c⟩
  rcases bid with _ | bid <;> rcases a with _ | a <;> rcases r with _ | r <;>
    rcases c with _ | c <;> simp [List.take_length] <;> split_ifs <;>
    simp [List.take_length, List.take_left]

theorem addBookH_reviews_eq (st : ServerState) (orc : Oracle) (bb : BookBody) :
    (addBookH st orc bb).2.1.reviews = st.reviews := by
  unfold addBookH
  rcases h : bb.title with _ | t <;> rcases h2 : bb.author with _ | a <;>
    rcases h3 : bb.isbn with _ | i <;> simp <;> split_ifs <;> rfl

theorem addBookH_books_extends (st : ServerState) (orc : Oracle) (bb : BookBody) :
    (addBookH st orc bb).2.1.books.take st.books.length = st.books := by
  unfold addBookH
  rcases h : bb.title with _ | t <;> rcases h2 : bb.author with _ | a <;>
    rcases h3 : bb.isbn with _ | i <;> simp [List.take_length] <;> split_ifs <;>
    simp [List.take_length, List.take_left]

/-- Appending a book never disturbs the front of the collection: the books
after `addBookH` are the old books plus a (possibly empty) tail. -/
theorem addBookH_books_append (st : ServerState) (orc : Oracle) (bb : BookBody) :
    ∃ tail, (addBookH st orc bb).2.1.books = st.books ++ tail := by
  unfold addBookH
  rcases h : bb.title with _ | t <;> rcases h2 : bb.author with _ | a <;>
    rcases h3 : bb.isbn with _ | i <;> simp <;> split_ifs <;> simp

/-- A successful lookup survives any later exposed mutation: `find?`
returns the first match and mutations only append. -/
theorem getById_applyOp (st : ServerState) (op : Op) (id : String) (b : Book)
    (h : getById st id = some b) : getById (applyOp st op) id = some b := by
  cases op with
  | addReview orc rb =>
    unfold getById applyOp
    rw [addReviewH_books_eq]
    exact h
  | addBook orc bb =>
    unfold getById applyOp
    obtain ⟨tail, htail⟩ := addBookH_books_append st orc bb
    rw [htail, List.find?_append]
    unfold getById at h
    rw [h]
    rfl

/-- A successful lookup survives any sequence of exposed mutations. -/
theorem getById_applyOps (ops : List Op) (st : ServerState) (id : String)
    (b : Book) (h : getById st id = some b) :
    getById (applyOps st ops) id = some b := by
  induction ops generalizing st with
  | nil => exact h
  | cons op rest ih => exact ih (applyOp st op) (getById_applyOp st op id b h)

/-! ## Claim theorems -/

/-- C6: a `POST /api/books` request without an `Authorization` header is
answered 401 with the exact challenge header
`WWW-Authenticate: Basic realm="Restricted Area"`, the state is unchanged
and `saveData` is not invoked, for every state and body. -/
theorem c6_missing_auth_challenge (st : ServerState) (orc : Oracle)
    (q : List (String × String)) (bb : BookBody) (rb : ReviewBody) :
    handle st orc
      { method := .POST, path := ["api", "books"], query := q,
        authorization := none, bookBody := bb, reviewBody := rb } =
      ({ status := 401,
         wwwAuthenticate := some "Basic realm=\"Restricted Area\"",
         body := .text "Authentication required." }, st, false) := by
  rfl

/-- C9: no request ever modifies or removes an existing Book or Review
record: after any request, the old book list is an initial segment of the
new one and likewise for reviews (the handlers only ever append), and a
review mutation leaves the book collection — in particular every `rating`
and `reviewCount` field — exactly as it was. -/
theorem c9_no_record_mutation (st : ServerState) (orc orc2 : Oracle)
    (req : Request) (rb : ReviewBody) :
    ((handle st orc req).2.1.books.take st.books.length = st.books ∧
     (handle st orc req).2.1.reviews.take st.reviews.length = st.reviews) ∧
    (applyOp st (Op.addReview orc2 rb)).books = st.books := by
  constructor
  · unfold handle
    split
    all_goals try exact ⟨List.take_length _, List.take_length _⟩
    · unfold withAuth
      split
      all_goals try exact ⟨List.take_length _, List.take_length _⟩
      exact ⟨addBookH_books_extends st orc req.bookBody,
             by rw [addBookH_reviews_eq st orc req.bookBody]; exact List.take_length _⟩
    · unfold withAuth
      split
      all_goals try exact ⟨List.take_length _, List.take_length _⟩
      exact ⟨by rw [addReviewH_books_eq st orc req.reviewBody]; exact List.take_length _,
             addReviewH_reviews_extends st orc req.reviewBody⟩
  · exact addReviewH_books_eq st orc2 rb

/-- C5: an authenticated `POST /api/books` whose title, author and isbn are
present and non-empty answers 201 with a Book carrying the generated id,
the given required fields and the specified defaults (each optional field
defaulting when absent), and appends exactly that Book; if a required field
is missing or empty the handler answers 400 with a validation message and
leaves the state untouched without saving. -/
theorem c5_add_book_spec (st : ServerState) (orc : Oracle) (bb : BookBody)
    (hdr : String) (hauth : basicAuth (some hdr) = .proceed) :
    (∀ t a i, bb.title = some t → bb.author = some a → bb.isbn = some i →
      t ≠ "" → a ≠ "" → i ≠ "" →
      handle st orc (postBookReq hdr bb) =
        ({ status := 201, body := .jsonBook (mkNewBook orc bb t a i) },
         { st with books := st.books ++ [mkNewBook orc bb t a i] }, true) ∧
      (mkNewBook orc bb t a i).id = orc.uuid ∧
      (mkNewBook orc bb t a i).title = t ∧
      (mkNewBook orc bb t a i).author = a ∧
      (mkNewBook orc bb t a i).isbn = i ∧
      (mkNewBook orc bb t a i).rating = 0 ∧
      (mkNewBook orc bb t a i).reviewCount = 0 ∧
      (mkNewBook orc bb t a i).inStock = true ∧
      (mkNewBook orc bb t a i).featured = false ∧
      (bb.genre = none → (mkNewBook orc bb t a i).genre = []) ∧
      (bb.tags = none → (mkNewBook orc bb t a i).tags = []) ∧
      (bb.description = none → (mkNewBook orc bb t a i).description = "") ∧
      (bb.publisher = none → (mkNewBook orc bb t a i).publisher = "") ∧
      (bb.language = none → (mkNewBook orc bb t a i).language = "English") ∧
      (bb.price = none → (mkNewBook orc bb t a i).price = 0) ∧
      (bb.pages = none → (mkNewBook orc bb t a i).pages = 0)) ∧
    (¬ (truthyS bb.title ∧ truthyS bb.author ∧ truthyS bb.isbn) →
      (handle st orc (postBookReq hdr bb)).1.status = 400 ∧
      (handle st orc (postBookReq hdr bb)).1.body =
        .jsonMsg "Missing required fields: title, author, and isbn are required." ∧
      (handle st orc (postBookReq hdr bb)).2.1 = st ∧
      (handle st orc (postBookReq hdr bb)).2.2 = false) := by
  have hh : handle st orc (postBookReq hdr bb) =
      withAuth st (some hdr) (fun _ => addBookH st orc bb) := rfl
  constructor
  · intro t a i ht ha hi hnt hna hni
    refine ⟨?_, rfl, rfl, rfl, rfl, rfl, rfl, rfl, rfl,
            fun hg => by simp [mkNewBook, jsOrA, hg],
            fun hg => by simp [mkNewBook, jsOrA, hg],
            fun hg => by simp [mkNewBook, jsOrS, hg],
            fun hg => by simp [mkNewBook, jsOrS, hg],
            fun hg => by simp [mkNewBook, jsOrS, hg],
            fun hg => by simp [mkNewBook, jsOrN, hg],
            fun hg => by simp [mkNewBook, jsOrN, hg]⟩
    rw [hh]
    unfold withAuth
    rw [hauth]
    unfold addBookH
    rw [ht, ha, hi]
    simp [hnt, hna, hni]
  · intro hbad
    rw [hh]
    unfold withAuth
    rw [hauth]
    unfold addBookH
    rcases ht : bb.title with _ | t
    · simp
    · rcases ha : bb.author with _ | a
      · simp
      · rcases hi : bb.isbn with _ | i
        · simp
        · have : t = "" ∨ a = "" ∨ i = "" := by
            by_contra hc
            push_neg at hc
            exact hbad ⟨by simp [truthyS, ht, hc.1],
                        by simp [truthyS, ha, hc.2.1],
                        by simp [truthyS, hi, hc.2.2]⟩
          simp [if_pos this]

/-- C5 witness: the concrete spec scenario — title T, author A, isbn 123
with valid credentials — yields 201 and appends the default-filled book. -/
theorem c5_add_book_spec_witness :
    handle st0 orc0 (postBookReq goodAuth bbTAI) =
      ({ status := 201, body := .jsonBook (mkNewBook orc0 bbTAI "T" "A" "123") },
       { st0 with books := st0.books ++ [mkNewBook orc0 bbTAI "T" "A" "123"] }, true) :=
  (((c5_add_book_spec st0 orc0 bbTAI goodAuth (by decide)).1) "T" "A" "123"
    rfl rfl rfl (by decide) (by decide) (by decide)).1

/-- Review body with an unknown `bookId` and all required fields truthy
(the spec scenario). -/
def rbUnknown : ReviewBody := ⟨some "nope", some "A", some 5, none, some "x"⟩

/-- Review body with an unknown `bookId` but an empty (falsy) comment. -/
def rbIncomplete : ReviewBody := ⟨some "nope", some "A", some 5, some "t", some ""⟩

/-- C4 counterexample: an addReview input whose `bookId` matches no book
but whose `comment` is empty is answered 400 by the presence validation,
not 404 — the claim, quantified over every input with an unknown `bookId`,
does not hold as stated. -/
theorem c4_validation_precedes_counterexample :
    (handle st0 orc0 (postReviewReq goodAuth rbIncomplete)).1.status = 400 ∧
    st0.books.any (fun b => b.id == "nope") = false ∧
    (400 : Nat) ≠ 404 := by
  decide

/-- C4 (amended): for every addReview input whose required fields are
present and truthy and whose `bookId` matches no stored book, the handler
answers 404 with the not-found message, leaves the state unchanged, and
does not invoke `saveData`. -/
theorem c4_add_review_unknown_book (st : ServerState) (orc : Oracle)
    (rb : ReviewBody) (hdr : String) (hauth : basicAuth (some hdr) = .proceed)
    (bid a c : String) (r : Int)
    (hb : rb.bookId = some bid) (ha : rb.author = some a)
    (hr : rb.rating = some r) (hc : rb.comment = some c)
    (hbne : bid ≠ "") (hane : a ≠ "") (hrne : r ≠ 0) (hcne : c ≠ "")
    (hnf : ∀ b ∈ st.books, b.id ≠ bid) :
    handle st orc (postReviewReq hdr rb) =
      ({ status := 404,
         body := .jsonMsg "Book not found. Cannot add a review for a non-existent book." },
       st, false) := by
  have hh : handle st orc (postReviewReq hdr rb) =
      withAuth st (some hdr) (fun _ => addReviewH st orc rb) := rfl
  rw [hh]
  unfold withAuth
  rw [hauth]
  unfold addReviewH
  rw [hb, ha, hr, hc]
  have hany : st.books.any (fun b => b.id == bid) = false :=
    List.any_eq_false.mpr (by intro x hx; simpa using hnf x hx)
  simp [hbne, hane, hrne, hcne, hany]

/-- C4 witness: the concrete spec scenario — unknown bookId, author A,
rating 5, comment x, valid credentials — draws the 404 with no state
change and no save. -/
theorem c4_add_review_unknown_book_witness :
    handle st0 orc0 (postReviewReq goodAuth rbUnknown) =
      ({ status := 404,
         body := .jsonMsg "Book not found. Cannot add a review for a non-existent book." },
       st0, false) :=
  c4_add_review_unknown_book st0 orc0 rbUnknown goodAuth (by decide)
    "nope" "A" "x" 5 rfl rfl rfl rfl (by decide) (by decide) (by decide)
    (by decide) (by decide)

/-- C3 counterexample: the header value `x` is present and carries no
matching credentials, yet the middleware evaluates
`Buffer.from(undefined, 'base64')` (no space, so `split(' ')[1]` is
undefined), throws, and Express answers 500, not 401. -/
theorem c3_no_space_counterexample :
    basicAuth (some "x") = .threw ∧
    (handle st0 orc0 (postBookReq "x" bbTAI)).1.status = 500 ∧
    (500 : Nat) ≠ 401 := by
  decide

/-- C3 (amended): for every request dispatched to either protected
endpoint (`POST /api/books` or `POST /api/reviews`) carrying a present
non-empty header that does contain a space-separated payload whose
credentials mismatch, the gate fails and the request is answered 401 with
the invalid-credentials message; a header without a space makes the
middleware throw, and that error is still translated at the request
boundary — to status 500 by the framework error handler, never a crash. -/
theorem c3_auth_error_translation (st : ServerState) (orc : Oracle)
    (req : Request)
    (hroute : matchRoute req.method req.path = some .postBook ∨
              matchRoute req.method req.path = some .postReview)
    (hdr : String) (hha : req.authorization = some hdr) (hne : hdr ≠ "") :
    (∀ payload, (jsSplit hdr ' ')[1]? = some payload → credOk payload = false →
      handle st orc req = (invalidCredResp, st, false) ∧
      invalidCredResp.status = 401) ∧
    ((jsSplit hdr ' ')[1]? = none →
      handle st orc req = (err500Resp, st, false) ∧
      err500Resp.status = 500) := by
  constructor
  · intro payload hp hbad
    have hba : basicAuth (some hdr) = .invalid := by
      simp only [basicAuth]
      rw [if_neg hne, hp]
      simp [hbad]
    refine ⟨?_, rfl⟩
    rcases hroute with hm | hm
    · have hred : handle st orc req =
          withAuth st req.authorization (fun _ => addBookH st orc req.bookBody) := by
        unfold handle
        rw [hm]
      rw [hred, hha]
      unfold withAuth
      rw [hba]
    · have hred : handle st orc req =
          withAuth st req.authorization (fun _ => addReviewH st orc req.reviewBody) := by
        unfold handle
        rw [hm]
      rw [hred, hha]
      unfold withAuth
      rw [hba]
  · intro hp
    have hba : basicAuth (some hdr) = .threw := by
      simp only [basicAuth]
      rw [if_neg hne, hp]
    refine ⟨?_, rfl⟩
    rcases hroute with hm | hm
    · have hred : handle st orc req =
          withAuth st req.authorization (fun _ => addBookH st orc req.bookBody) := by
        unfold handle
        rw [hm]
      rw [hred, hha]
      unfold withAuth
      rw [hba]
    · have hred : handle st orc req =
          withAuth st req.authorization (fun _ => addReviewH st orc req.reviewBody) := by
        unfold handle
        rw [hm]
      rw [hred, hha]
      unfold withAuth
      rw [hba]

/-- C3 witness: on the books endpoint a well-formed header with wrong
credentials (base64 of the word wrong) draws the 401 invalid-credentials
response, and on the reviews endpoint a header without a space draws the
500 of the framework error handler. -/
theorem c3_auth_error_translation_witness :
    handle st0 orc0 (postBookReq "Basic d3Jvbmc=" bbTAI) =
      (invalidCredResp, st0, false) ∧
    handle st0 orc0 (postReviewReq "x" rbUnknown) =
      (err500Resp, st0, false) :=
  ⟨((c3_auth_error_translation st0 orc0 (postBookReq "Basic d3Jvbmc=" bbTAI)
      (Or.inl (by decide)) "Basic d3Jvbmc=" rfl (by decide)).1
      "d3Jvbmc=" (by decide) (by decide)).1,
   ((c3_auth_error_translation st0 orc0 (postReviewReq "x" rbUnknown)
      (Or.inr (by decide)) "x" rfl (by decide)).2 (by decide)).1⟩

/-- A second oracle, for a later mutation in the C7 witness. -/
def orcB : Oracle := ⟨"uuid-2", "2024-01-03", "2024-01-03T00:00:00.000Z"⟩

/-- C7: after a successful authenticated `addBook` whose generated id is
fresh (the `randomUUID` contract), both the repository lookup and the
`GET /api/books/:id` route return exactly the created Book, field for
field, after any further sequence of exposed mutations. -/
theorem c7_get_by_id_stable (st : ServerState) (orc orc2 : Oracle)
    (bb : BookBody) (hdr : String) (hauth : basicAuth (some hdr) = .proceed)
    (t a i : String) (ht : bb.title = some t) (ha : bb.author = some a)
    (hi : bb.isbn = some i) (hnt : t ≠ "") (hna : a ≠ "") (hni : i ≠ "")
    (hfresh : ∀ b ∈ st.books, b.id ≠ orc.uuid) (ops : List Op) :
    getById (applyOps (handle st orc (postBookReq hdr bb)).2.1 ops) orc.uuid =
      some (mkNewBook orc bb t a i) ∧
    handle (applyOps (handle st orc (postBookReq hdr bb)).2.1 ops) orc2
        { method := .GET, path := ["api", "books", orc.uuid] } =
      ({ status := 200, body := .jsonBook (mkNewBook orc bb t a i) },
       applyOps (handle st orc (postBookReq hdr bb)).2.1 ops, false) := by
  have hh : handle st orc (postBookReq hdr bb) =
      withAuth st (some hdr) (fun _ => addBookH st orc bb) := rfl
  have hpost : (handle st orc (postBookReq hdr bb)).2.1 =
      { st with books := st.books ++ [mkNewBook orc bb t a i] } := by
    rw [hh]
    unfold withAuth
    rw [hauth]
    unfold addBookH
    rw [ht, ha, hi]
    simp [hnt, hna, hni]
  have h0 : getById { st with books := st.books ++ [mkNewBook orc bb t a i] }
      orc.uuid = some (mkNewBook orc bb t a i) := by
    unfold getById
    rw [List.find?_append]
    have h1 : st.books.find? (fun b => b.id == orc.uuid) = none :=
      List.find?_eq_none.mpr (by intro x hx; simpa using hfresh x hx)
    rw [h1]
    simp [List.find?, mkNewBook]
  have hmain : getById (applyOps (handle st orc (postBookReq hdr bb)).2.1 ops)
      orc.uuid = some (mkNewBook orc bb t a i) := by
    rw [hpost]
    exact getById_applyOps ops _ _ _ h0
  refine ⟨hmain, ?_⟩
  have hg : handle (applyOps (handle st orc (postBookReq hdr bb)).2.1 ops) orc2
        { method := .GET, path := ["api", "books", orc.uuid] } =
      (getBookByIdH (applyOps (handle st orc (postBookReq hdr bb)).2.1 ops)
        orc.uuid,
       applyOps (handle st orc (postBookReq hdr bb)).2.1 ops, false) := rfl
  rw [hg]
  unfold getBookByIdH
  unfold getById at hmain
  rw [hmain]

/-- C7 witness: the created book (fresh uuid) is still returned by the
lookup after a further book insertion. -/
theorem c7_get_by_id_stable_witness :
    getById (applyOps (handle st0 orc0 (postBookReq goodAuth bbTAI)).2.1
        [Op.addBook orcB bbTAI]) orc0.uuid =
      some (mkNewBook orc0 bbTAI "T" "A" "123") :=
  (c7_get_by_id_stable st0 orc0 orcB bbTAI goodAuth (by decide) "T" "A" "123"
    rfl rfl rfl (by decide) (by decide) (by decide) (by decide)
    [Op.addBook orcB bbTAI]).1

/-- Decoding inverts encoding on string arrays. -/
theorem decodeStrList_map (l : List String) :
    decodeStrList (l.map Json.str) = some l := by
  induction l with
  | nil => rfl
  | cons x xs ih => simp [decodeStrList, asStr, ih]

/-- Decoding inverts encoding elementwise. -/
theorem decodeAll_map {α : Type} (f : Json → Option α) (g : α → Json)
    (hfg : ∀ x, f (g x) = some x) (l : List α) :
    decodeAll f (l.map g) = some l := by
  induction l with
  | nil => rfl
  | cons x xs ih => simp [decodeAll, hfg, ih]

/-- A Book record survives the serialize/parse round trip. -/
theorem decodeBook_encodeBook (b : Book) :
    decodeBook (encodeBook b) = some b := by
  simp [decodeBook, encodeBook, getField, asStr, asNum, asBool, asArr,
        List.find?, decodeStrList_map]

/-- A Review record survives the serialize/parse round trip. -/
theorem decodeReview_encodeReview (r : Review) :
    decodeReview (encodeReview r) = some r := by
  simp [decodeReview, encodeReview, getField, asStr, asNum, asBool,
        List.find?, Rat.den_intCast, Rat.num_intCast]

/-- C8: persisting the two collections (`saveData`) and parsing the two
documents back (`loadData`) reproduces the same collections — same
entities, same field values, same order — for every state. -/
theorem c8_save_load_roundtrip (st : ServerState) :
    loadData (saveData st) = some st := by
  simp [loadData, saveData, getField, asArr, List.find?,
        decodeAll_map decodeBook encodeBook decodeBook_encodeBook,
        decodeAll_map decodeReview encodeReview decodeReview_encodeReview]

/-- Splitting a list free of the separator yields the single whole part. -/
theorem splitOnChar_of_not_mem (sep : Char) (l : List Char) (h : sep ∉ l) :
    splitOnChar sep l = [l] := by
  induction l with
  | nil => rfl
  | cons c cs ih =>
    have hc : c ≠ sep := fun e => h (e ▸ List.mem_cons_self c cs)
    have hcs : sep ∉ cs := fun m => h (List.mem_cons_of_mem _ m)
    simp [splitOnChar, hc, ih hcs]

/-- Splitting at the first separator occurrence peels off the part before
it. -/
theorem splitOnChar_append_sep (sep : Char) (l1 l2 : List Char)
    (h : sep ∉ l1) :
    splitOnChar sep (l1 ++ sep :: l2) = l1 :: splitOnChar sep l2 := by
  induction l1 with
  | nil => simp [splitOnChar]
  | cons c cs ih =>
    have hc : c ≠ sep := fun e => h (e ▸ List.mem_cons_self c cs)
    have hcs : sep ∉ cs := fun m => h (List.mem_cons_of_mem _ m)
    simp [splitOnChar, hc, ih hcs]

/-- C10 counterexample: the claimed equivalence — accepted iff the decoded
payload equals the user-colon-password string — fails: a payload decoding
to that string followed by a further colon-separated field is also
accepted, because the destructuring only inspects the first two split
fields.  The header scheme token is `Basic` here; the decoded bytes differ
from the hardcoded pair, yet the request reaches the handler (201). -/
theorem c10_extra_field_counterexample :
    basicAuth (some "Basic bWVkaGF0Okhlcm85Nzp4") = .proceed ∧
    b64decode "bWVkaGF0Okhlcm85Nzp4" ≠ asciiBytes "medhat:Hero97" ∧
    (handle st0 orc0 (postBookReq "Basic bWVkaGF0Okhlcm85Nzp4" bbTAI)).1.status = 201 := by
  decide

/-- C10 (amended): for every header of the form token-space-payload (token
and payload free of spaces), the gate accepts exactly when the first two
colon-separated fields of the base64-decoded payload are the hardcoded
username and password — the scheme token is never inspected. -/
theorem c10_scheme_never_checked (tok payload : String)
    (htok : ' ' ∉ tok.data) (hpay : ' ' ∉ payload.data) :
    basicAuth (some (tok ++ " " ++ payload)) = .proceed ↔
      ((authParts payload)[0]? = some (asciiBytes "medhat") ∧
       (authParts payload)[1]? = some (asciiBytes "Hero97")) := by
  have hdata : (tok ++ " " ++ payload).data = tok.data ++ ' ' :: payload.data := by
    simp [String.data_append]
  have hne : (tok ++ " " ++ payload) ≠ "" := by
    intro e
    have h2 := congrArg String.data e
    rw [hdata] at h2
    simp at h2
  have hsplit : (jsSplit (tok ++ " " ++ payload) ' ')[1]? = some payload := by
    unfold jsSplit
    rw [hdata, splitOnChar_append_sep _ _ _ htok,
        splitOnChar_of_not_mem _ _ hpay]
    rfl
  simp only [basicAuth]
  rw [if_neg hne, hsplit]
  cases hc : credOk payload with
  | true =>
    simp only [hc, if_true]
    unfold credOk at hc
    rw [Bool.and_eq_true, decide_eq_true_eq, decide_eq_true_eq] at hc
    simp [hc]
  | false =>
    simp only [hc, if_false]
    unfold credOk at hc
    rw [Bool.and_eq_false_iff] at hc
    constructor
    · intro h
      cases h
    · intro h
      rcases hc with hc | hc <;> rw [decide_eq_false_iff_not] at hc
      · exact absurd h.1 hc
      · exact absurd h.2 hc

/-- C10 witness: a header with the scheme token NotBasic but the correct
payload is accepted. -/
theorem c10_scheme_never_checked_witness :
    basicAuth (some ("NotBasic" ++ " " ++ "bWVkaGF0Okhlcm85Nw==")) = .proceed :=
  (c10_scheme_never_checked "NotBasic" "bWVkaGF0Okhlcm85Nw=="
    (by decide) (by decide)).mpr (by decide)

/-- C1: a `GET /api/books/published` request with well-formed
`startDate`/`endDate` parameters is dispatched to the earlier-registered
`/api/books/:id` route (with `id = "published"`), so the server answers
404 `Book not found` instead of the specified 200 with the books whose
`datePublished` lies in the range — which here would be both fixture books,
as the range filter of the unreachable handler shows. -/
theorem c1_published_route_shadowed :
    matchRoute .GET ["api", "books", "published"] = some .bookById ∧
    (handle st0 orc0 reqPublished).1 =
      { status := 404, body := .text "Book not found" } ∧
    publishedH st0 reqPublished.query =
      { status := 200, body := .jsonBooks [book1, book2] } := by
  decide

/-- C2: a `GET /api/books/top-rated` request is dispatched to the
earlier-registered `/api/books/:id` route (with `id = "top-rated"`), so the
server answers 404 `Book not found` instead of the specified 200 with the
score-sorted projection — which the unreachable handler would have produced
(fixture book 2 first with score 50, then book 1 with score 8). -/
theorem c2_top_rated_route_shadowed :
    matchRoute .GET ["api", "books", "top-rated"] = some .bookById ∧
    (handle st0 orc0 reqTopRated).1 =
      { status := 404, body := .text "Book not found" } ∧
    topRatedH st0 =
      { status := 200,
        body := .jsonScored [⟨book2, 50⟩, ⟨book1, 8⟩] } := by
  refine ⟨by decide, by decide, ?_⟩
  norm_num [topRatedH, st0, book1, book2, scoreOf, sortByScoreDesc, insertByScore]

end Amana
